import Mathlib

/-!
Verification development for the closable-queue pipeline in `queue.py` /
`queue2.py` (Effective Python teaching snippets).

The Python source builds a three-stage producer-consumer pipeline twice:
first with a naive `MyQueue` (deque + lock, busy-waiting workers), then with
`ClosableQueue`, a `queue.Queue` subclass with a sentinel-based close
protocol driven by `StoppableWorker` threads and a sequential
close/join cascade in the module driver.

Shallow embedding conventions:
  * A queue slot is a `QVal`: either a real item or the class-level
    `SENTINEL` object.  The Python code distinguishes the sentinel by object
    identity (`item is self.SENTINEL`); the embedding distinguishes it by
    constructor tag, which is faithful because `object()` at class-creation
    time is identical across instances and distinct from every enqueued item.
  * `queue.Queue` state is the FIFO list of pending slots plus the
    `unfinished_tasks` counter: `put` appends and increments the counter,
    `get` pops the front (returning `none` models blocking on an empty
    queue: no value is ever produced from that call until a `put` occurs),
    `task_done` decrements, `join` returns exactly when the counter is zero.
  * Thread interleaving is linearised: the module driver's `join()` cascade
    guarantees each stage's input queue is fully drained before the next
    stage's queue is closed, so a worker's whole consumption loop is run as
    one function over the final contents of its input queue.
-/

namespace EffectivePython

/-- A value stored in a queue slot: a real item, or the unique class-level
sentinel object used by `ClosableQueue.close` (queue.py:209-213). -/
inductive QVal (α : Type) where
  | item : α → QVal α
  | sentinel : QVal α
deriving DecidableEq, Repr

/-- Identity test `item is self.SENTINEL` from `ClosableQueue.__iter__`
(queue.py:220). -/
def isSentinel {α : Type} : QVal α → Bool
  | QVal.sentinel => true
  | QVal.item _ => false

/-- Does a list of queue slots contain the sentinel anywhere? -/
def hasSentinel {α : Type} (l : List (QVal α)) : Bool :=
  l.any isSentinel

/-- State of a `queue.Queue` / `ClosableQueue`: FIFO pending slots plus the
`unfinished_tasks` counter that `put` increments, `task_done` decrements and
`join` waits on. -/
structure ClosableQueue (α : Type) where
  pending : List (QVal α)
  unfinished : Nat
deriving DecidableEq, Repr

namespace ClosableQueue

/-- A freshly constructed `ClosableQueue()`: nothing pending, no unfinished
tasks. -/
def empty (α : Type) : ClosableQueue α := ⟨[], 0⟩

/-- Python `Queue.put`: append to the back of the FIFO and increment
`unfinished_tasks`. -/
def put {α : Type} (q : ClosableQueue α) (v : QVal α) : ClosableQueue α :=
  ⟨q.pending ++ [v], q.unfinished + 1⟩

/-- Python `Queue.get`: `none` when the queue is empty (the real call blocks and
returns no value until something is put); otherwise remove and return the
oldest pending slot.  `get` does not touch `unfinished_tasks`. -/
def get {α : Type} (q : ClosableQueue α) : Option (QVal α × ClosableQueue α) :=
  match q.pending with
  | [] => none
  | v :: rest => some (v, ⟨rest, q.unfinished⟩)

/-- Python `Queue.task_done`: decrement `unfinished_tasks` by one.  (The stdlib
raises ValueError when the counter is already zero; in every run modelled
here the counter is positive at each call, where Nat subtraction agrees.) -/
def task_done {α : Type} (q : ClosableQueue α) : ClosableQueue α :=
  ⟨q.pending, q.unfinished - 1⟩

/-- Python `Queue.join` unblocks exactly when `unfinished_tasks` is zero. -/
def joinReturns {α : Type} (q : ClosableQueue α) : Bool :=
  q.unfinished == 0

/-- Python `Queue.qsize`: snapshot of the pending length. -/
def qsize {α : Type} (q : ClosableQueue α) : Nat :=
  q.pending.length

/-- The class attribute `SENTINEL = object()` (queue.py:210): one object
created when the class body runs, hence the same value for every instance. -/
def SENTINEL {α : Type} (_q : ClosableQueue α) : QVal α :=
  QVal.sentinel

/-- Method `ClosableQueue.close` (queue.py:212-213): `self.put(self.SENTINEL)`. -/
def close {α : Type} (q : ClosableQueue α) : ClosableQueue α :=
  q.put q.SENTINEL

end ClosableQueue

/-- Enqueue a list of caller items in order (`for ...: queue.put(object())`,
queue.py:257-258). -/
def enqueueAll {α : Type} (q : ClosableQueue α) (xs : List α) : ClosableQueue α :=
  xs.foldl (fun acc a => acc.put (QVal.item a)) q

/-- The naive `MyQueue` (queue.py:22-39): a deque of items.  The `Lock` only
serialises `append`/`popleft` and has no observable effect in the
linearised model. -/
structure MyQueue (α : Type) where
  items : List α
deriving DecidableEq, Repr

namespace MyQueue

/-- An empty `MyQueue()`. -/
def empty (α : Type) : MyQueue α := ⟨[]⟩

/-- Method `MyQueue.put` (queue.py:27-32): append to the end of the pending items. -/
def put {α : Type} (q : MyQueue α) (a : α) : MyQueue α :=
  ⟨q.items ++ [a]⟩

/-- Method `MyQueue.get` (queue.py:34-39): `popleft` the front item; on an empty
deque `popleft` raises IndexError, so `get` fails instead of blocking. -/
def get {α : Type} (q : MyQueue α) : Except String (α × MyQueue α) :=
  match q.items with
  | [] => Except.error "IndexError"
  | a :: rest => Except.ok (a, ⟨rest⟩)

/-- Enqueue a list of items in order. -/
def putAll {α : Type} (q : MyQueue α) (xs : List α) : MyQueue α :=
  xs.foldl put q

/-- Repeatedly `get()` until the queue is empty, collecting the returned
items in order. -/
def drainAll {α : Type} : MyQueue α → List α
  | ⟨[]⟩ => []
  | ⟨a :: rest⟩ => a :: drainAll ⟨rest⟩

end MyQueue

/-- Mutable per-thread state of the naive `Worker` (queue.py:47-54):
its transform function and the two counters. -/
structure Worker (α β : Type) where
  func : α → β
  polled_count : Nat
  work_done : Nat

/-- One iteration of `Worker.run` (queue.py:60-71): poll the input queue;
on IndexError sleep and retry leaving both queues unchanged; otherwise apply
`func` and put the result on the output queue. -/
def Worker.runStep {α β : Type} (w : Worker α β) (inq : MyQueue α)
    (outq : MyQueue β) : Worker α β × MyQueue α × MyQueue β :=
  match inq.get with
  | Except.error _ =>
      ({ w with polled_count := w.polled_count + 1 }, inq, outq)
  | Except.ok (a, inq') =>
      ({ w with polled_count := w.polled_count + 1,
                work_done := w.work_done + 1 },
        inq', outq.put (w.func a))

/-- A naive worker's whole consumption of a fully populated input `MyQueue`
(the successful iterations of `Worker.run`): transform each item in FIFO
order onto the output queue. -/
def Worker.drainAll {α β : Type} (f : α → β) :
    MyQueue α → MyQueue β → MyQueue α × MyQueue β
  | ⟨[]⟩, out => (⟨[]⟩, out)
  | ⟨a :: rest⟩, out => Worker.drainAll f ⟨rest⟩ (out.put (f a))

/-- The first pipeline's module driver (queue.py:78-101): three naive
workers chained download → resize → upload; the main thread busy-waits on
`len(done_queue.items)`.  Returns the final `done_queue`. -/
def firstPipelineDone {α : Type} (download resize upload : α → α)
    (inputs : List α) : MyQueue α :=
  let s1 := Worker.drainAll download (MyQueue.putAll (MyQueue.empty α) inputs)
      (MyQueue.empty α)
  let s2 := Worker.drainAll resize s1.2 (MyQueue.empty α)
  let s3 := Worker.drainAll upload s2.2 (MyQueue.empty α)
  s3.2

/-! ### ClosableQueue iteration as an event trace

`ClosableQueue.__iter__` (queue.py:216-224) is a generator:

    while True:
        item = self.get()
        try:
            if item is self.SENTINEL:
                return
            yield item
        finally:
            self.task_done()

Driving it in a `for` loop whose body may raise, the observable events per
loop turn are: a dequeue (the value `get()` returned), possibly a yield to
the consumer, and the `task_done()` fired by the `finally` clause — the
`finally` also runs when the consumer raises at the suspended `yield`
(the `for` loop then closes the generator, injecting GeneratorExit there)
and when the sentinel branch returns. -/

/-- Observable event of one queue operation during a consumption loop. -/
inductive Ev (α : Type) where
  | dequeue : QVal α → Ev α
  | yielded : QVal α → Ev α
  | taskDone : Ev α
deriving DecidableEq, Repr

/-- Is this event a `task_done()` call? -/
def isTaskDoneEv {α : Type} : Ev α → Bool
  | Ev.taskDone => true
  | _ => false

/-- Is this event a completed `get()` (a value dequeued)? -/
def isDequeueEv {α : Type} : Ev α → Bool
  | Ev.dequeue _ => true
  | _ => false

/-- The values passed to the consumer (yielded by the generator), in order. -/
def yieldedVals {α : Type} : List (Ev α) → List (QVal α)
  | [] => []
  | Ev.yielded v :: rest => v :: yieldedVals rest
  | _ :: rest => yieldedVals rest

/-- Event trace of `for item in queue` over a queue whose final contents are
`pending`, driven by a consumer body `f` that may fail on a yielded value.
A sentinel ends the loop (its `task_done` still fires, no yield); a consumer
failure ends the loop after the failing item's `finally`-guaranteed
`task_done`; an exhausted pending list means the next `get()` blocks, so the
trace simply stops there. -/
def iterTrace {α ε β : Type} (f : QVal α → Except ε β) :
    List (QVal α) → List (Ev α)
  | [] => []
  | v :: rest =>
    if isSentinel v then
      [Ev.dequeue v, Ev.taskDone]
    else
      match f v with
      | Except.error _ => [Ev.dequeue v, Ev.yielded v, Ev.taskDone]
      | Except.ok _ =>
          Ev.dequeue v :: Ev.yielded v :: Ev.taskDone :: iterTrace f rest

/-! ### StoppableWorker -/

/-- The slice of `threading.Thread` state that `Thread.__init__` sets up and
`Thread.start` checks (`if not self._initialized: raise RuntimeError`). -/
structure ThreadState where
  initDone : Bool
deriving DecidableEq, Repr

/-- Python `Thread.start`: launches the thread only if `Thread.__init__` ran;
otherwise raises RuntimeError. -/
def ThreadState.start (t : ThreadState) : Except String Unit :=
  if t.initDone then Except.ok () else Except.error "thread.__init__() not called"

/-- A `StoppableWorker` object (queue.py:229-234): thread state plus the
transform function and the two queues. -/
structure StoppableWorker (α β : Type) where
  thread : ThreadState
  func : α → β
  in_queue : ClosableQueue α
  out_queue : ClosableQueue β

/-- Constructor `StoppableWorker.__init__` (queue.py:230-234).  Line 231 is the bare
expression statement `super().__init__` — the bound method is looked up but
never called, so `Thread.__init__` does not run and the thread state stays
uninitialised.  The three attribute assignments then execute normally. -/
def StoppableWorker.init {α β : Type} (func : α → β) (in_queue : ClosableQueue α)
    (out_queue : ClosableQueue β) : StoppableWorker α β :=
  ⟨⟨false⟩, func, in_queue, out_queue⟩

/-- Calling `start()` on a `StoppableWorker` defers to `Thread.start`. -/
def StoppableWorker.start {α β : Type} (w : StoppableWorker α β) :
    Except String Unit :=
  w.thread.start

/-- Method `StoppableWorker.run` (queue.py:236-239) consuming its whole input
queue: `for item in self.in_queue: self.out_queue.put(self.func(item))`.
Each loop turn dequeues one slot and fires its `task_done`; a non-sentinel
item is transformed and put on the output queue; the sentinel ends the loop
leaving any later slots in place.  Returns the final input queue, the final
output queue, and the sequence of values retrieved, in order. -/
def runLoopAux {α β : Type} (f : α → β) :
    List (QVal α) → Nat → ClosableQueue β →
      ClosableQueue α × ClosableQueue β × List (QVal α)
  | [], n, out => (⟨[], n⟩, out, [])
  | QVal.sentinel :: rest, n, out => (⟨rest, n - 1⟩, out, [QVal.sentinel])
  | QVal.item a :: rest, n, out =>
    let r := runLoopAux f rest (n - 1) (out.put (QVal.item (f a)))
    (r.1, r.2.1, QVal.item a :: r.2.2)

/-- The loop of `StoppableWorker.run` over a queue state (see
`runLoopAux`). -/
def runLoop {α β : Type} (f : α → β) (q : ClosableQueue α)
    (out : ClosableQueue β) :
    ClosableQueue α × ClosableQueue β × List (QVal α) :=
  runLoopAux f q.pending q.unfinished out

/-- Variant of `StoppableWorker.run` when the transform itself may raise (`f` returns
`Except`).  `run` has no handler: the exception propagates out of the `for`
loop — the failing item's `task_done` still fires (generator `finally`), but
the loop ends, later slots stay pending with their `unfinished` counts, and
the error escapes as the thread's uncaught exception. -/
def runLoopEAux {α ε β : Type} (f : α → Except ε β) :
    List (QVal α) → Nat → ClosableQueue β →
      ClosableQueue α × ClosableQueue β × Option ε
  | [], n, out => (⟨[], n⟩, out, none)
  | QVal.sentinel :: rest, n, out => (⟨rest, n - 1⟩, out, none)
  | QVal.item a :: rest, n, out =>
    match f a with
    | Except.error e => (⟨rest, n - 1⟩, out, some e)
    | Except.ok b => runLoopEAux f rest (n - 1) (out.put (QVal.item b))

/-- The loop of `StoppableWorker.run` with a fallible transform, over a
queue state (see `runLoopEAux`). -/
def runLoopE {α ε β : Type} (f : α → Except ε β) (q : ClosableQueue α)
    (out : ClosableQueue β) :
    ClosableQueue α × ClosableQueue β × Option ε :=
  runLoopEAux f q.pending q.unfinished out

/-! ### The ClosableQueue pipeline driver

queue.py:242-271: four queues, three `StoppableWorker`s; the main thread
puts 1000 items into `download_queue`, closes it, then joins and closes in
sequence; `done_queue` is never closed.  The `join()` cascade linearises
the run: every slot of a stage's input queue is dequeued and accounted
before the next queue's `close()` — so each worker's loop is run over its
input queue's final contents. -/

/-- Full record of one run of the second (ClosableQueue) pipeline. -/
structure PipelineRun (α : Type) where
  dqFinal : ClosableQueue α
  dqTrace : List (QVal α)
  rqClosed : ClosableQueue α
  rqFinal : ClosableQueue α
  rqTrace : List (QVal α)
  uqClosed : ClosableQueue α
  uqFinal : ClosableQueue α
  uqTrace : List (QVal α)
  done_queue : ClosableQueue α

/-- The module-level driver of the second pipeline (queue.py:255-271):
inject `inputs` into `download_queue`, `close()` it, run each stage's worker
over its input queue (the `join()` between stages orders these), closing
each next queue after the previous `join` returns. -/
def pipelineRun {α : Type} (download resize upload : α → α)
    (inputs : List α) : PipelineRun α :=
  let dq := (enqueueAll (ClosableQueue.empty α) inputs).close
  let s1 := runLoop download dq (ClosableQueue.empty α)
  let rq := s1.2.1.close
  let s2 := runLoop resize rq (ClosableQueue.empty α)
  let uq := s2.2.1.close
  let s3 := runLoop upload uq (ClosableQueue.empty α)
  ⟨s1.1, s1.2.2, rq, s2.1, s2.2.2, uq, s3.1, s3.2.2, s3.2.1⟩

/-- Concrete transform for the failure scenario of §8: succeeds on every
item except 3, where it raises. -/
def failsOn3 : Nat → Except Unit Nat :=
  fun a => if a = 3 then Except.error () else Except.ok a

/-- Concrete input queue for the failure scenario: five puts and one
`close()`, so `unfinished_tasks = 6`. -/
def failDemoQueue : ClosableQueue Nat :=
  (enqueueAll (ClosableQueue.empty Nat) [1, 2, 3, 4, 5]).close

/-! ### Helper lemmas -/

lemma enqueueAll_cons {α : Type} (q : ClosableQueue α) (a : α) (xs : List α) :
    enqueueAll q (a :: xs) = enqueueAll (q.put (QVal.item a)) xs := rfl

lemma enqueueAll_eq {α : Type} (xs : List α) :
    ∀ q : ClosableQueue α,
      enqueueAll q xs = ⟨q.pending ++ xs.map QVal.item, q.unfinished + xs.length⟩ := by
  induction xs with
  | nil => intro q; simp [enqueueAll]
  | cons a xs ih =>
    intro q
    rw [enqueueAll_cons, ih]
    simp [ClosableQueue.put, ClosableQueue.mk.injEq]
    omega

lemma hasSentinel_map_item {α : Type} (xs : List α) :
    hasSentinel (xs.map QVal.item) = false := by
  simp [hasSentinel, List.any_map, Function.comp, isSentinel]

lemma runLoopAux_spec {α β : Type} (f : α → β) (xs : List α) :
    ∀ (n : Nat) (out : ClosableQueue β),
      runLoopAux f (xs.map QVal.item ++ [QVal.sentinel]) n out =
        (⟨[], n - (xs.length + 1)⟩, enqueueAll out (xs.map f),
         xs.map QVal.item ++ [QVal.sentinel]) := by
  induction xs with
  | nil => intro n out; simp [runLoopAux, enqueueAll]
  | cons a xs ih =>
    intro n out
    simp only [List.map_cons, List.cons_append, runLoopAux, List.append_eq]
    rw [ih (n - 1) (out.put (QVal.item (f a)))]
    simp [enqueueAll_cons, ClosableQueue.mk.injEq, Prod.ext_iff]
    omega

lemma runLoop_spec {α β : Type} (f : α → β) (xs : List α) (n : Nat)
    (out : ClosableQueue β) :
    runLoop f ⟨xs.map QVal.item ++ [QVal.sentinel], n⟩ out =
      (⟨[], n - (xs.length + 1)⟩, enqueueAll out (xs.map f),
       xs.map QVal.item ++ [QVal.sentinel]) :=
  runLoopAux_spec f xs n out

lemma MyQueue.putAll_eq {α : Type} (xs : List α) :
    ∀ q : MyQueue α, MyQueue.putAll q xs = ⟨q.items ++ xs⟩ := by
  induction xs with
  | nil => intro q; simp [MyQueue.putAll]
  | cons a xs ih =>
    intro q
    have h : MyQueue.putAll q (a :: xs) = MyQueue.putAll (q.put a) xs := rfl
    rw [h, ih]
    simp [MyQueue.put]

lemma MyQueue.drainAll_mk {α : Type} (xs : List α) :
    MyQueue.drainAll ⟨xs⟩ = xs := by
  induction xs with
  | nil => simp [MyQueue.drainAll]
  | cons a xs ih => simp [MyQueue.drainAll, ih]

lemma Worker.drainAll_spec {α β : Type} (f : α → β) (xs : List α) :
    ∀ out : MyQueue β,
      Worker.drainAll f ⟨xs⟩ out = (⟨[]⟩, ⟨out.items ++ xs.map f⟩) := by
  induction xs with
  | nil => intro out; simp [Worker.drainAll]
  | cons a xs ih =>
    intro out
    simp [Worker.drainAll, ih, MyQueue.put]

lemma firstPipelineDone_eq {α : Type} (download resize upload : α → α)
    (inputs : List α) :
    firstPipelineDone download resize upload inputs =
      ⟨((inputs.map download).map resize).map upload⟩ := by
  unfold firstPipelineDone
  rw [MyQueue.putAll_eq]
  simp [MyQueue.empty, Worker.drainAll_spec]

lemma pipelineRun_eq {α : Type} (d r u : α → α) (inputs : List α) :
    pipelineRun d r u inputs =
      ⟨⟨[], 0⟩, inputs.map QVal.item ++ [QVal.sentinel],
       ⟨(inputs.map d).map QVal.item ++ [QVal.sentinel], inputs.length + 1⟩,
       ⟨[], 0⟩, (inputs.map d).map QVal.item ++ [QVal.sentinel],
       ⟨((inputs.map d).map r).map QVal.item ++ [QVal.sentinel], inputs.length + 1⟩,
       ⟨[], 0⟩, ((inputs.map d).map r).map QVal.item ++ [QVal.sentinel],
       ⟨(((inputs.map d).map r).map u).map QVal.item, inputs.length⟩⟩ := by
  unfold pipelineRun
  rw [enqueueAll_eq]
  simp only [ClosableQueue.close, ClosableQueue.put, ClosableQueue.SENTINEL,
    ClosableQueue.empty, List.nil_append, Nat.zero_add, runLoop_spec,
    enqueueAll_eq, List.length_map]
  simp [Nat.sub_self]

lemma runLoopEAux_spec {α ε β : Type} (f : α → Except ε β) (g : α → β)
    (b : α) (e : ε) (hbad : f b = Except.error e) (ys : List α) (xs : List α) :
    ∀ (n : Nat) (out : ClosableQueue β), (∀ x ∈ xs, f x = Except.ok (g x)) →
      runLoopEAux f ((xs ++ b :: ys).map QVal.item ++ [QVal.sentinel]) n out =
        (⟨ys.map QVal.item ++ [QVal.sentinel], n - (xs.length + 1)⟩,
         enqueueAll out (xs.map g), some e) := by
  induction xs with
  | nil =>
    intro n out _
    simp [runLoopEAux, hbad, enqueueAll]
  | cons a xs ih =>
    intro n out hok
    have ha : f a = Except.ok (g a) := hok a (List.mem_cons_self a xs)
    have hxs : ∀ x ∈ xs, f x = Except.ok (g x) :=
      fun x hx => hok x (List.mem_cons_of_mem a hx)
    simp only [List.cons_append, List.map_cons, runLoopEAux, ha, List.append_eq]
    rw [ih (n - 1) (out.put (QVal.item (g a))) hxs]
    rw [← enqueueAll_cons, ← List.map_cons]
    simp [Prod.ext_iff, ClosableQueue.mk.injEq]
    omega

lemma iterTrace_taskDone_eq_dequeue {α ε β : Type} (f : QVal α → Except ε β) :
    ∀ pending : List (QVal α),
      (iterTrace f pending).countP isTaskDoneEv =
        (iterTrace f pending).countP isDequeueEv := by
  intro pending
  induction pending with
  | nil => rfl
  | cons v rest ih =>
    cases h : isSentinel v with
    | true => simp [iterTrace, h, List.countP_cons, isTaskDoneEv, isDequeueEv]
    | false =>
      cases hf : f v with
      | error e =>
        simp [iterTrace, h, hf, List.countP_cons, isTaskDoneEv, isDequeueEv]
      | ok b =>
        simp [iterTrace, h, hf, List.countP_cons, isTaskDoneEv, isDequeueEv, ih]

lemma iterTrace_yields_no_sentinel {α ε β : Type} (f : QVal α → Except ε β) :
    ∀ pending : List (QVal α),
      hasSentinel (yieldedVals (iterTrace f pending)) = false := by
  intro pending
  induction pending with
  | nil => rfl
  | cons v rest ih =>
    cases h : isSentinel v with
    | true => simp [iterTrace, h, yieldedVals, hasSentinel]
    | false =>
      cases hf : f v with
      | error e =>
        simp [iterTrace, h, hf, yieldedVals, hasSentinel]
      | ok b =>
        simp only [iterTrace, h, hf, Bool.false_eq_true, if_false, yieldedVals]
        simp only [hasSentinel, List.any_cons, h, Bool.false_or]
        exact ih

/-! ### Claim theorems -/

/-- C1: in a run of the three-stage pipeline where N items are put into the
first stage's input queue and each stage's input queue is then closed and
joined in sequence, the final done queue holds exactly the N transformed
results, in order — no item lost, none duplicated — for any N; each stage's
`join()` indeed returns (unfinished count 0 after its drain), and the first
(naive) pipeline's busy-wait condition `len(done_queue.items) < objects`
likewise ends with exactly N items. -/
theorem C1_pipeline_exact_count {α : Type} (download resize upload : α → α)
    (inputs : List α) :
    (pipelineRun download resize upload inputs).done_queue.pending =
        (inputs.map (fun a => upload (resize (download a)))).map QVal.item ∧
    (pipelineRun download resize upload inputs).done_queue.qsize =
        inputs.length ∧
    (pipelineRun download resize upload inputs).dqFinal.joinReturns = true ∧
    (pipelineRun download resize upload inputs).rqFinal.joinReturns = true ∧
    (pipelineRun download resize upload inputs).uqFinal.joinReturns = true ∧
    (firstPipelineDone download resize upload inputs).items.length =
        inputs.length := by
  rw [pipelineRun_eq, firstPipelineDone_eq]
  simp [ClosableQueue.qsize, ClosableQueue.joinReturns, List.map_map,
    Function.comp]

/-- C2: iterating a ClosableQueue never yields the sentinel: whatever the
queue contents and however the consumer behaves (including failing), the
dequeued sentinel terminates the sequence without being yielded, so it is
never passed to a transform function; and the pipeline's final done queue
never contains a sentinel. -/
theorem C2_sentinel_isolation {α ε β : Type} (f : QVal α → Except ε β)
    (pending : List (QVal α)) (download resize upload : α → α)
    (inputs : List α) :
    hasSentinel (yieldedVals (iterTrace f pending)) = false ∧
    hasSentinel
      (pipelineRun download resize upload inputs).done_queue.pending = false := by
  refine ⟨iterTrace_yields_no_sentinel f pending, ?_⟩
  rw [pipelineRun_eq]
  exact hasSentinel_map_item _

/-- C3: in every consumption loop over a ClosableQueue — for any queue
contents and any consumer body, including one that fails on a yielded item —
the number of `task_done()` calls in the trace equals the number of values
dequeued by `get()`: the `finally` clause fires exactly once per dequeued
value, sentinel or not, however the iteration step exits. -/
theorem C3_task_done_once_per_dequeue {α ε β : Type}
    (f : QVal α → Except ε β) (pending : List (QVal α)) :
    (iterTrace f pending).countP isTaskDoneEv =
      (iterTrace f pending).countP isDequeueEv :=
  iterTrace_taskDone_eq_dequeue f pending

/-- C4 counterexample: run `StoppableWorker.run` with a transform failing on
item 3 over a queue holding items 1..5 and the closing sentinel.  The
failing item is still `task_done`-accounted and the error propagates out of
`run`, but the worker does NOT continue its loop: items 4, 5 and the
sentinel remain pending (only two outputs were produced), the queue keeps
`unfinished_tasks = 3`, so `join()` never returns and the pipeline does not
complete — contradicting the claim that the worker continues and the
pipeline completes with the failure reported as a per-item outcome. -/
theorem C4_counterexample :
    (runLoopE failsOn3 failDemoQueue (ClosableQueue.empty Nat)).2.2 =
        some () ∧
    (runLoopE failsOn3 failDemoQueue (ClosableQueue.empty Nat)).1.pending =
        [QVal.item 4, QVal.item 5, QVal.sentinel] ∧
    (runLoopE failsOn3 failDemoQueue (ClosableQueue.empty Nat)).1.unfinished =
        3 ∧
    (runLoopE failsOn3 failDemoQueue
        (ClosableQueue.empty Nat)).1.joinReturns = false ∧
    (runLoopE failsOn3 failDemoQueue (ClosableQueue.empty Nat)).2.1.pending =
        [QVal.item 1, QVal.item 2] := by
  decide

/-- C4 (amended): if the transform fails on an item, the failed item is
still accounted via `task_done` (the generator's `finally` fires) and the
error is surfaced by propagating out of `run` rather than being swallowed
in-loop, but the worker does NOT continue: the loop terminates at the
failing item, every later slot (and the sentinel) stays pending and
unaccounted — so the stage's `join()` never returns and no per-item failure
outcome is produced. -/
theorem C4_worker_stops_on_failure {α ε β : Type} (f : α → Except ε β)
    (g : α → β) (xs ys : List α) (b : α) (e : ε)
    (hok : ∀ x ∈ xs, f x = Except.ok (g x)) (hbad : f b = Except.error e) :
    runLoopE f ⟨(xs ++ b :: ys).map QVal.item ++ [QVal.sentinel],
        (xs ++ b :: ys).length + 1⟩ (ClosableQueue.empty β) =
      (⟨ys.map QVal.item ++ [QVal.sentinel], ys.length + 1⟩,
       enqueueAll (ClosableQueue.empty β) (xs.map g), some e) := by
  have heq : runLoopE f ⟨(xs ++ b :: ys).map QVal.item ++ [QVal.sentinel],
      (xs ++ b :: ys).length + 1⟩ (ClosableQueue.empty β) =
        runLoopEAux f ((xs ++ b :: ys).map QVal.item ++ [QVal.sentinel])
          ((xs ++ b :: ys).length + 1) (ClosableQueue.empty β) := rfl
  rw [heq, runLoopEAux_spec f g b e hbad ys xs ((xs ++ b :: ys).length + 1)
    (ClosableQueue.empty β) hok]
  simp [List.length_append]

/-- C4 witness: the amended theorem applied at the concrete failure
scenario (items 1..5, transform failing on 3). -/
theorem C4_witness :
    runLoopE failsOn3 ⟨([1, 2] ++ 3 :: [4, 5]).map QVal.item ++
        [QVal.sentinel], ([1, 2] ++ 3 :: [4, 5]).length + 1⟩
        (ClosableQueue.empty Nat) =
      (⟨[4, 5].map QVal.item ++ [QVal.sentinel], [4, 5].length + 1⟩,
       enqueueAll (ClosableQueue.empty Nat) ([1, 2].map (fun x => x)),
       some ()) :=
  C4_worker_stops_on_failure failsOn3 (fun x => x) [1, 2] [4, 5] 3 ()
    (by intro x hx; fin_cases hx <;> rfl) (by rfl)

/-- C5: `Queue.get` on an empty queue blocks (no value is produced by that
call) and on a nonempty queue returns and removes the oldest pending value;
the naive `MyQueue.get` instead raises IndexError on an empty deque, and one
iteration of `Worker.run` compensates by catching it and retrying, leaving
both queues unchanged, while on a nonempty queue it consumes the oldest item
and puts the transformed result. -/
theorem C5_get_blocks_or_raises {α β : Type} (n : Nat) (v : QVal α)
    (rest : List (QVal α)) (a : α) (restM : List α) (w : Worker α β)
    (outq : MyQueue β) :
    ClosableQueue.get (⟨[], n⟩ : ClosableQueue α) = none ∧
    ClosableQueue.get (⟨v :: rest, n⟩ : ClosableQueue α) =
        some (v, ⟨rest, n⟩) ∧
    MyQueue.get (⟨[]⟩ : MyQueue α) = Except.error "IndexError" ∧
    MyQueue.get (⟨a :: restM⟩ : MyQueue α) = Except.ok (a, ⟨restM⟩) ∧
    Worker.runStep w ⟨[]⟩ outq =
        ({ w with polled_count := w.polled_count + 1 }, ⟨[]⟩, outq) ∧
    Worker.runStep w ⟨a :: restM⟩ outq =
        ({ w with polled_count := w.polled_count + 1,
                  work_done := w.work_done + 1 },
          ⟨restM⟩, outq.put (w.func a)) := by
  refine ⟨rfl, rfl, rfl, rfl, ?_, ?_⟩ <;> simp [Worker.runStep, MyQueue.get]

/-- C6: `close()` enqueues exactly one sentinel via the underlying `put`,
and `close()` is not idempotent: a second `close()` on the same queue
enqueues a second sentinel. -/
theorem C6_close_enqueues_one_sentinel {α : Type} (q : ClosableQueue α) :
    q.close = q.put q.SENTINEL ∧
    q.close.pending = q.pending ++ [QVal.sentinel] ∧
    q.close.pending.countP isSentinel = q.pending.countP isSentinel + 1 ∧
    q.close.close.pending = q.pending ++ [QVal.sentinel, QVal.sentinel] ∧
    q.close.close.pending.countP isSentinel =
        q.pending.countP isSentinel + 2 := by
  refine ⟨rfl, rfl, ?_, ?_, ?_⟩ <;>
    simp [ClosableQueue.close, ClosableQueue.put, ClosableQueue.SENTINEL,
      List.countP_append, isSentinel, List.countP_cons]

/-- C7: in the pipeline run, each closed queue's retrieval sequence is its
items in order followed by the sentinel: the sentinel is the last value
ever retrieved from that queue instance, and no item is enqueued (hence
retrieved) after it. -/
theorem C7_sentinel_retrieved_last {α : Type} (d r u : α → α)
    (inputs : List α) :
    (pipelineRun d r u inputs).dqTrace =
        inputs.map QVal.item ++ [QVal.sentinel] ∧
    (pipelineRun d r u inputs).rqTrace =
        (inputs.map d).map QVal.item ++ [QVal.sentinel] ∧
    (pipelineRun d r u inputs).uqTrace =
        ((inputs.map d).map r).map QVal.item ++ [QVal.sentinel] ∧
    (pipelineRun d r u inputs).dqTrace.getLast? = some QVal.sentinel ∧
    hasSentinel (pipelineRun d r u inputs).dqTrace.dropLast = false ∧
    hasSentinel (pipelineRun d r u inputs).rqTrace.dropLast = false ∧
    hasSentinel (pipelineRun d r u inputs).uqTrace.dropLast = false := by
  rw [pipelineRun_eq]
  refine ⟨rfl, rfl, rfl, ?_, ?_, ?_, ?_⟩
  · simp
  · simp only [List.dropLast_concat]
    exact hasSentinel_map_item inputs
  · simp only [List.dropLast_concat]
    exact hasSentinel_map_item (inputs.map d)
  · simp only [List.dropLast_concat]
    exact hasSentinel_map_item ((inputs.map d).map r)

/-- C8: FIFO and single-worker order: draining a `MyQueue` after a sequence
of puts returns the items in exactly the order they were put, and a
single-worker stage's output queue holds the transform applied to the input
items in input order. -/
theorem C8_fifo_single_worker_order {α β : Type} (f : α → β) (xs : List α)
    (n : Nat) :
    MyQueue.drainAll (MyQueue.putAll (MyQueue.empty α) xs) = xs ∧
    (runLoop f ⟨xs.map QVal.item ++ [QVal.sentinel], n⟩
        (ClosableQueue.empty β)).2.1.pending = (xs.map f).map QVal.item := by
  constructor
  · rw [MyQueue.putAll_eq]
    simp [MyQueue.empty, MyQueue.drainAll_mk]
  · rw [runLoop_spec]
    simp [enqueueAll_eq, ClosableQueue.empty]

/-- C9: `StoppableWorker.__init__` evaluates the attribute expression
`super().__init__` without calling it, so the Thread base initializer never
runs: every constructed StoppableWorker has uninitialised thread state and
`start()` on it raises RuntimeError instead of launching the worker loop
(while a properly initialised thread would start). -/
theorem C9_thread_init_never_runs {α β : Type} (f : α → β)
    (inq : ClosableQueue α) (outq : ClosableQueue β) :
    (StoppableWorker.init f inq outq).thread.initDone = false ∧
    (StoppableWorker.init f inq outq).start =
        Except.error "thread.__init__() not called" ∧
    ThreadState.start ⟨true⟩ = Except.ok () :=
  ⟨rfl, rfl, rfl⟩

/-- C10: the sentinel is a single class-level value shared by all
ClosableQueue instances — any two instances have the same `SENTINEL` — and
it is distinguishable from every item a caller enqueues: the identity test
of `__iter__` accepts the shared sentinel and rejects every wrapped item. -/
theorem C10_sentinel_shared_and_distinct {α : Type}
    (q1 q2 : ClosableQueue α) (a : α) :
    q1.SENTINEL = q2.SENTINEL ∧
    isSentinel q1.SENTINEL = true ∧
    isSentinel (QVal.item a) = false :=
  ⟨rfl, rfl, rfl⟩

end EffectivePython
